import Mathlib

attribute [local semireducible] Rat.add Rat.sub Rat.mul Rat.inv Rat.ofScientific

/-
Verification of the input/evaluation engine of the scientific-calculator
application (src/calculator/main.py, class CalculatorApp).

The Python engine keeps four pieces of mutable state: `self.result.value`
(the displayed value), `self.operator`, `self.operand1` and
`self.new_operand`, and processes one button token at a time in
`CalculatorApp.button_clicked`.

Modelling conventions:
* Python runtime values that the program stores in `result.value` or
  `operand1` (a string, an int, a float, or None) are modelled by `PyVal`.
* IEEE doubles are modelled by exact rationals.  Every arithmetic step the
  theorems below exercise is exact in double precision, so the model and
  the program agree on them; float overflow and rounding noise lie outside
  the model and outside every theorem in this file.
* An uncaught Python exception is modelled by `none`: the event handler
  `button_clicked` returns `Option CalcState`, and `none` means the press
  raised an exception that escaped the handler.
* The C math library reached through the `math` module is a parameter
  (`MathOps`); no theorem below depends on the value of any of its
  functions except `math.sqrt(4.0) = 2.0`, which is exact in IEEE
  arithmetic and appears either as an explicit hypothesis or through the
  sample instantiation `sampleOps`.
* `parseFloat` models CPython `float(string)` on the grammar of display
  strings the program can construct (optional minus sign, digits, at most
  one decimal point, at least one digit).  Forms `float` also accepts but
  that no display string exhibits (leading `+`, surrounding whitespace,
  underscores, exponents, `inf`, `nan`) are outside the model.
-/

/-- Numeric value of a list of decimal digit characters, most significant
first, as CPython accumulates it. -/
def digitsVal (l : List Char) : ℕ :=
  l.foldl (fun n c => 10 * n + (c.toNat - 48)) 0

/-- CPython `float(string)` on an unsigned decimal string, given as a char
list: digits with at most one decimal point and at least one digit.
Returns `none` exactly when CPython raises `ValueError` on such input
(e.g. `"."`, `".."`, `""`, or any non-digit character). -/
def parsePosL (l : List Char) : Option ℚ :=
  let a := l.takeWhile (fun c => c != '.')
  let r := l.dropWhile (fun c => c != '.')
  match r with
  | [] =>
    if a ≠ [] ∧ a.all Char.isDigit then some (digitsVal a) else none
  | _ :: b =>
    if (a ≠ [] ∨ b ≠ []) ∧ a.all Char.isDigit ∧ b.all Char.isDigit then
      some ((digitsVal a : ℚ) + (digitsVal b : ℚ) / 10 ^ b.length)
    else none

/-- CPython `float(string)` on display strings: an optional leading minus
sign followed by an unsigned decimal string.  `none` models `ValueError`. -/
def parseFloat (s : String) : Option ℚ :=
  match s.data with
  | [] => none
  | c :: rest =>
    if c = '-' then (parsePosL rest).map (fun q => -q)
    else parsePosL (c :: rest)

/-- Decimal rendering of a nonnegative rational that is exactly
representable with at most 17 decimal places; used for CPython
`str(float)`.  `str` of an integral float appends `".0"`; otherwise the
shortest terminating decimal expansion is produced, which for every float
value the theorems in this file evaluate coincides with CPython repr. -/
def floatStrNonneg (q : ℚ) : String :=
  if q.den = 1 then toString q.num ++ ".0"
  else
    let k := (((List.range 18).filter (fun k => (q * 10 ^ k).den == 1)).head?).getD 17
    let n := (q * 10 ^ k).floor.toNat
    let s := toString n
    let s := if s.length < k + 1 then String.mk (List.replicate (k + 1 - s.length) '0') ++ s else s
    s.take (s.length - k) ++ "." ++ s.drop (s.length - k)

/-- CPython `str` applied to a float value. -/
def floatStr (q : ℚ) : String :=
  if q < 0 then "-" ++ floatStrNonneg (-q) else floatStrNonneg q

/-- Python runtime values the program stores in `result.value` and
`operand1`: a string, an int, a float, or None (`calculate` falling
through every branch returns None). -/
inductive PyVal where
  | pstr (s : String)
  | pint (n : ℤ)
  | pfloat (q : ℚ)
  | pnone
  deriving DecidableEq

/-- CPython `str` applied to a `PyVal`; this is also what the flet Text
widget renders for the stored display value. -/
def pyStr : PyVal → String
  | .pstr s => s
  | .pint n => toString n
  | .pfloat q => floatStr q
  | .pnone => "None"

/-- Python `==` between a stored value and a string literal: string
contents compare by value, every other runtime type compares unequal to a
string. -/
def pyEqStr : PyVal → String → Bool
  | .pstr s, t => s == t
  | _, _ => false

/-- Numeric reading of a `PyVal` as used by Python arithmetic (`+`, `-`,
`*`, `/` on operands): ints and floats are numbers, a string or None
operand raises `TypeError` (`none`). -/
def toNum : PyVal → Option ℚ
  | .pint n => some (n : ℚ)
  | .pfloat q => some q
  | _ => none

/-- True for values Python arithmetic accepts as numbers. -/
def isNum : PyVal → Bool
  | .pint _ => true
  | .pfloat _ => true
  | _ => false

/-- CPython `float(value)`: parses strings, passes numbers through, and
raises (`none`) on None and on unparseable strings. -/
def pyFloat : PyVal → Option ℚ
  | .pstr s => parseFloat s
  | .pint n => some (n : ℚ)
  | .pfloat q => some q
  | .pnone => none

/-- CalculatorApp.format_number: `num % 1 == 0` is exactly "the float is
integral", and `int(num)` is its integer value, so an integral result is
converted to a Python int and any other result is returned unchanged. -/
def format_number (q : ℚ) : PyVal :=
  if q.den = 1 then .pint q.num else .pfloat q

/-- CalculatorApp.calculate: dispatch on the pending operator over
`+ - * /`, with the divide-by-zero check performed before the division;
an operator matching no branch falls through and returns Python None.
`none` models a `TypeError` raised by arithmetic on a non-numeric
`operand1`. -/
def calculate (operand1 : PyVal) (operand2 : ℚ) (operator : String) : Option PyVal :=
  if operator = "+" then (toNum operand1).map (fun a => format_number (a + operand2))
  else if operator = "-" then (toNum operand1).map (fun a => format_number (a - operand2))
  else if operator = "*" then (toNum operand1).map (fun a => format_number (a * operand2))
  else if operator = "/" then
    if operand2 = 0 then some (.pstr "Error")
    else (toNum operand1).map (fun a => format_number (a / operand2))
  else some .pnone

/-- The functions of the C math library reached through Python `math`,
taken as parameters of the model.  `sinDeg`, `cosDeg` and `tanDeg` are
the compositions `math.sin ∘ math.radians` etc. of the source, taking the
displayed value in degrees.  `powNonInt` is `str(a ** b)` for a
non-integral exponent (`none` when `**` raises). -/
structure MathOps where
  sinDeg : ℚ → ℚ
  cosDeg : ℚ → ℚ
  tanDeg : ℚ → ℚ
  sqrt : ℚ → ℚ
  log10 : ℚ → ℚ
  log : ℚ → ℚ
  pi : ℚ
  powNonInt : ℚ → ℚ → Option String

/-- Integer power of a rational, as float `**` computes it on an integral
exponent (exact whenever the double result is exact). -/
def qpow (a : ℚ) (n : ℤ) : ℚ :=
  if 0 ≤ n then a ^ n.toNat else (a ^ (-n).toNat)⁻¹

/-- CPython `str(a ** b)` for float operands: integral exponents are
computed exactly (`0.0 ** negative` raises `ZeroDivisionError`, modelled
as `none`); non-integral exponents defer to the `powNonInt` parameter. -/
def powFloat (ops : MathOps) (a b : ℚ) : Option String :=
  if b.den = 1 then
    if a = 0 ∧ b.num < 0 then none
    else some (floatStr (qpow a b.num))
  else ops.powNonInt a b

/-- A sample instantiation of the math-library parameters.  The only field
any proof below evaluates is `sqrt` at `4`, where it agrees with the C
library: `math.sqrt(4.0) == 2.0` exactly in IEEE arithmetic.  Every other
field is arbitrary and unreachable in the concrete button traces proved
about below. -/
def sampleOps : MathOps where
  sinDeg := fun _ => 0
  cosDeg := fun _ => 0
  tanDeg := fun _ => 0
  sqrt := fun q => if q = 4 then 2 else 0
  log10 := fun _ => 0
  log := fun _ => 0
  pi := 3141592653589793 / 1000000000000000
  powNonInt := fun _ _ => none

/-- The mutable state of CalculatorApp: the displayed value
`self.result.value`, the pending operator `self.operator`, the pending
left operand `self.operand1`, and the flag `self.new_operand`. -/
structure CalcState where
  display : PyVal
  operator : String
  operand1 : PyVal
  new_operand : Bool
  deriving DecidableEq

/-- The digit and decimal-point tokens, in source order. -/
def digitToks : List String :=
  ["1", "2", "3", "4", "5", "6", "7", "8", "9", "0", "."]

/-- The four binary-operator tokens routed through `calculate`. -/
def binToks : List String := ["+", "-", "*", "/"]

/-- CalculatorApp.button_clicked: processes one button token against the
current state.  Branches appear in source order; `none` models an
exception escaping the handler (every `float(...)` call outside a
`try` block, and string concatenation or arithmetic on an operand of the
wrong runtime type). -/
def button_clicked (ops : MathOps) (s : CalcState) (data : String) : Option CalcState :=
  if pyEqStr s.display "Error" = true ∨ data = "AC" then
    some { display := .pstr "0", operator := "+", operand1 := .pint 0, new_operand := true }
  else if data ∈ digitToks then
    if pyEqStr s.display "0" = true ∨ s.new_operand = true then
      some { s with display := .pstr data, new_operand := false }
    else
      match s.display with
      | .pstr d0 => some { s with display := .pstr (d0 ++ data) }
      | _ => none
  else if data ∈ binToks then
    match pyFloat s.display with
    | none => none
    | some v =>
      match calculate s.operand1 v s.operator with
      | none => none
      | some r =>
        if pyEqStr r "Error" = true then
          some { display := r, operator := data, operand1 := .pstr "0", new_operand := true }
        else
          match pyFloat r with
          | none => none
          | some rv =>
            some { display := r, operator := data, operand1 := .pfloat rv, new_operand := true }
  else if data = "sin" then
    some { s with display := .pstr (match pyFloat s.display with
      | some v => floatStr (ops.sinDeg v)
      | none => "Error") }
  else if data = "cos" then
    some { s with display := .pstr (match pyFloat s.display with
      | some v => floatStr (ops.cosDeg v)
      | none => "Error") }
  else if data = "tan" then
    some { s with display := .pstr (match pyFloat s.display with
      | some v => floatStr (ops.tanDeg v)
      | none => "Error") }
  else if data = "√" then
    some { s with display := .pstr (match pyFloat s.display with
      | some v => if v < 0 then "Error" else floatStr (ops.sqrt v)
      | none => "Error") }
  else if data = "log" then
    some { s with display := .pstr (match pyFloat s.display with
      | some v => if v ≤ 0 then "Error" else floatStr (ops.log10 v)
      | none => "Error") }
  else if data = "ln" then
    some { s with display := .pstr (match pyFloat s.display with
      | some v => if v ≤ 0 then "Error" else floatStr (ops.log v)
      | none => "Error") }
  else if data = "^" then
    match pyFloat s.display with
    | none => none
    | some v => some { s with operator := "^", operand1 := .pfloat v, new_operand := true }
  else if data = "π" then
    some { s with display := .pstr (floatStr ops.pi) }
  else if data = "=" then
    if s.operator = "^" then
      some { display := .pstr (match toNum s.operand1, pyFloat s.display with
               | some a, some b => (powFloat ops a b).getD "Error"
               | _, _ => "Error"),
             operator := "+", operand1 := .pint 0, new_operand := true }
    else
      match pyFloat s.display with
      | none => none
      | some v =>
        match calculate s.operand1 v s.operator with
        | none => none
        | some r => some { display := r, operator := "+", operand1 := .pint 0, new_operand := true }
  else if data = "%" then
    match pyFloat s.display with
    | none => none
    | some v => some { display := .pfloat (v / 100), operator := "+", operand1 := .pint 0, new_operand := true }
  else if data = "+/-" then
    match pyFloat s.display with
    | none => none
    | some v =>
      if v > 0 then some { s with display := .pstr ("-" ++ pyStr s.display) }
      else if v < 0 then some { s with display := .pstr (pyStr (format_number (-v))) }
      else some s
  else some s

/-- The state built by `CalculatorApp.__init__` (which calls `reset`) with
the initial display string `"0"`. -/
def initState : CalcState :=
  { display := .pstr "0", operator := "+", operand1 := .pint 0, new_operand := true }

/-- Processing a list of button tokens in order; a press that raises
aborts the run with `none`. -/
def run (ops : MathOps) (s : CalcState) (ts : List String) : Option CalcState :=
  ts.foldl (fun acc t => acc.bind (fun s1 => button_clicked ops s1 t)) (some s)

/-- Claim C1: starting from the initial state, pressing the tokens
`5`, `+`, `2`, `*`, `3`, `=` in order evaluates left-to-right with no
precedence (the `*` press first evaluates 5+2=7 and stages 7, then `=`
computes 7*3) and ends with the display showing "21", for every
instantiation of the math-library parameters (none of which this trace
reaches). -/
theorem C1_chained_left_to_right :
    ∀ ops : MathOps,
      (run ops initState ["5", "+", "2", "*", "3", "="]).map (fun s1 => pyStr s1.display) =
        some "21" :=
  fun _ => rfl

/-- Claim C2, counterexample: pressing `4` then `√` from the initial state
leaves the display string "2.0", not "2" as the claim states — the √
branch writes `str(math.sqrt(value))` without routing the result through
`format_number` (`math.sqrt(4.0) == 2.0` exactly, and `sampleOps.sqrt`
agrees with it at `4`, the only point this trace evaluates). -/
theorem C2_sqrt_not_normalized_cex :
    ((run sampleOps initState ["4", "√"]).map (fun s1 => pyStr s1.display) = some "2.0") ∧
      ¬ ((run sampleOps initState ["4", "√"]).map (fun s1 => pyStr s1.display) = some "2") := by
  decide

/-- Claim C2, amended: `√` on a display of "-4" produces the sentinel
"Error", and `√` on "4" produces "2.0" (not "2"): unary-function results
are written with `str` and never pass through `format_number`; only the
binary `calculate` results are normalized, e.g. `calculate(2, 2, "+")`
returns the int `4`.  Stated for every math library with
`sqrt 4 = 2` (true of the C library: `math.sqrt(4.0) == 2.0` exactly). -/
theorem C2_sqrt_results :
    ∀ ops : MathOps, ops.sqrt 4 = 2 →
      (button_clicked ops { display := .pstr "-4", operator := "+", operand1 := .pint 0, new_operand := false } "√" =
        some { display := .pstr "Error", operator := "+", operand1 := .pint 0, new_operand := false }) ∧
      (button_clicked ops { display := .pstr "4", operator := "+", operand1 := .pint 0, new_operand := false } "√" =
        some { display := .pstr "2.0", operator := "+", operand1 := .pint 0, new_operand := false }) ∧
      calculate (.pint 2) 2 "+" = some (.pint 4) := by
  intro ops h
  refine ⟨rfl, ?_, by decide⟩
  rw [show button_clicked ops { display := .pstr "4", operator := "+", operand1 := .pint 0, new_operand := false } "√" = some { display := .pstr (floatStr (ops.sqrt 4)), operator := "+", operand1 := .pint 0, new_operand := false } from rfl, h]
  decide

/-- Claim C2, witness for the amended theorem: the sample math library
satisfies the hypothesis and exhibits the two √ results. -/
theorem C2_sqrt_results_witness :
    (button_clicked sampleOps { display := .pstr "-4", operator := "+", operand1 := .pint 0, new_operand := false } "√" =
      some { display := .pstr "Error", operator := "+", operand1 := .pint 0, new_operand := false }) ∧
    (button_clicked sampleOps { display := .pstr "4", operator := "+", operand1 := .pint 0, new_operand := false } "√" =
      some { display := .pstr "2.0", operator := "+", operand1 := .pint 0, new_operand := false }) ∧
    calculate (.pint 2) 2 "+" = some (.pint 4) :=
  C2_sqrt_results sampleOps (by decide)

/-- Claim C3, counterexample: pressing `2`, `^`, `3`, `=` ends with the
display "8.0", not "8" as the claim states — the power path stringifies
the float `2.0 ** 3.0` directly, bypassing `format_number`. -/
theorem C3_power_cex :
    ((run sampleOps initState ["2", "^", "3", "="]).map (fun s1 => pyStr s1.display) = some "8.0") ∧
      ¬ ((run sampleOps initState ["2", "^", "3", "="]).map (fun s1 => pyStr s1.display) = some "8") := by
  decide

/-- Claim C3, amended: pressing `2`, `^`, `3`, `=` evaluates the staged
power at `=` and ends with display "8.0" (the integral float keeps its
".0" because the `^` path of `=` does not normalize), with the
accumulator reset to defaults; this holds for every instantiation of the
math-library parameters, none of which the integral-exponent path
reaches. -/
theorem C3_power_display :
    ∀ ops : MathOps,
      run ops initState ["2", "^", "3", "="] =
        some { display := .pstr "8.0", operator := "+", operand1 := .pint 0, new_operand := true } :=
  fun _ => rfl

/-- Claim C4, counterexample: the display "Error" is reachable (press
`1`, `/`, `0`, `=`), and pressing the binary operator `+` there does NOT
stay in error mode: the first branch of `button_clicked` resets the
display to "0" on any press while "Error" is shown. -/
theorem C4_error_exit_cex :
    ((run sampleOps initState ["1", "/", "0", "="]).map (fun s1 => s1.display) = some (.pstr "Error")) ∧
      ((run sampleOps initState ["1", "/", "0", "=", "+"]).map (fun s1 => s1.display) = some (.pstr "0")) ∧
      PyVal.pstr "0" ≠ PyVal.pstr "Error" := by
  decide

/-- Claim C5, counterexample: with the display "Error" (reached by
`1`, `/`, `0`, `=`), pressing the digit `5` does not make the display
"5": the Error/AC branch fires first, consumes the press, and leaves the
display "0" with the accumulator reset. -/
theorem C5_digit_on_error_cex :
    ((run sampleOps initState ["1", "/", "0", "="]).map (fun s1 => s1.display) = some (.pstr "Error")) ∧
      ((run sampleOps initState ["1", "/", "0", "=", "5"]).map (fun s1 => s1.display) = some (.pstr "0")) ∧
      ¬ ((run sampleOps initState ["1", "/", "0", "=", "5"]).map (fun s1 => s1.display) = some (.pstr "5")) := by
  decide

/-- Claim C7, counterexample: the non-error state with display ".."
(reachable by pressing `.` twice) makes the `^` press raise an uncaught
`ValueError` from the unguarded `float(self.result.value)` — no state
results at all, instead of the operator being staged with the display
unchanged. -/
theorem C7_caret_raises_cex :
    (run sampleOps initState [".", "."] =
      some { display := .pstr "..", operator := "+", operand1 := .pint 0, new_operand := false }) ∧
      (button_clicked sampleOps { display := .pstr "..", operator := "+", operand1 := .pint 0, new_operand := false } "^" = none) ∧
      pyEqStr (.pstr "..") "Error" = false := by
  decide

/-- Claim C8, counterexample: the display "." is reachable (press `.`
from the initial state), and the next `+` press raises an uncaught
`ValueError` from the unguarded `float(self.result.value)` in the
binary-operator branch — an exception escapes the engine boundary
without being converted to the "Error" sentinel. -/
theorem C8_exception_escape_cex :
    (run sampleOps initState ["."] =
      some { display := .pstr ".", operator := "+", operand1 := .pint 0, new_operand := false }) ∧
      run sampleOps initState [".", "+"] = none := by
  decide

/-- Claim C9: the `calculate` dispatch has no case for the operator "^":
for all operands it falls through every branch and returns Python None
(neither a number nor the "Error" sentinel); consequently pressing
`2`, `^`, `3` and then a second binary operator `+` instead of `=` stores
None in the display and the press dies with an uncaught `TypeError` on
`float(None)`. -/
theorem C9_combine_no_caret_case :
    (∀ (a : PyVal) (b : ℚ), calculate a b "^" = some .pnone) ∧
      run sampleOps initState ["2", "^", "3", "+"] = none :=
  ⟨fun _ _ => rfl, by decide⟩

/-- A value that `float(...)` converts successfully is never the string
"Error" (in particular `float("Error")` raises). -/
theorem pyEqStr_error_of_pyFloat {v : PyVal} {x : ℚ} (h : pyFloat v = some x) :
    pyEqStr v "Error" = false := by
  cases v with
  | pstr s =>
    simp only [pyEqStr, beq_eq_false_iff_ne, ne_eq]
    intro he
    subst he
    have hz : pyFloat (PyVal.pstr "Error") = none := by decide
    rw [hz] at h
    exact Option.noConfusion h
  | pint n => rfl
  | pfloat q => rfl
  | pnone => exact Option.noConfusion h

/-- Claim C4, amended: from any state whose display is the sentinel
"Error", processing ANY token — binary operator, scientific function,
digit, or AC alike — fires the first branch of `button_clicked`, which
resets the display to "0" and the accumulator to its defaults.  Error
mode is exited by every press, not only by digit entry or AC. -/
theorem C4_any_press_resets_error :
    ∀ (ops : MathOps) (s : CalcState) (data : String), s.display = .pstr "Error" →
      button_clicked ops s data =
        some { display := .pstr "0", operator := "+", operand1 := .pint 0, new_operand := true } := by
  intro ops s data h
  unfold button_clicked
  rw [h]
  simp [pyEqStr]

/-- Claim C4, witness: pressing the binary operator `+` in a concrete
error state resets display and accumulator. -/
theorem C4_any_press_resets_error_witness :
    button_clicked sampleOps { display := .pstr "Error", operator := "*", operand1 := .pfloat 5, new_operand := false } "+" =
      some { display := .pstr "0", operator := "+", operand1 := .pint 0, new_operand := true } :=
  C4_any_press_resets_error sampleOps _ "+" rfl

/-- Claim C5, amended: for a digit or decimal-point token d pressed on a
string display s0: if s0 is "Error" the press is consumed by the
reset branch (display becomes "0", accumulator resets — the digit is NOT
entered); otherwise if s0 is "0" or awaiting_new_operand is true the
display becomes d and the flag clears; otherwise d is appended. -/
theorem C5_digit_entry :
    ∀ (ops : MathOps) (s : CalcState) (d s0 : String), d ∈ digitToks → s.display = .pstr s0 →
      (s0 = "Error" → button_clicked ops s d =
          some { display := .pstr "0", operator := "+", operand1 := .pint 0, new_operand := true }) ∧
      (s0 ≠ "Error" → (s0 = "0" ∨ s.new_operand = true) → button_clicked ops s d =
          some { s with display := .pstr d, new_operand := false }) ∧
      (s0 ≠ "Error" → s0 ≠ "0" → s.new_operand = false → button_clicked ops s d =
          some { s with display := .pstr (s0 ++ d) }) := by
  intro ops s d s0 hd hs
  have hAC : d ≠ "AC" := by
    intro he
    rw [he] at hd
    simp [digitToks] at hd
  refine ⟨?_, ?_, ?_⟩
  · intro herr
    subst herr
    unfold button_clicked
    rw [hs]
    simp [pyEqStr]
  · intro herr hrep
    unfold button_clicked
    rw [hs]
    rw [if_neg (by simp [pyEqStr, hAC, herr])]
    rw [if_pos hd]
    rw [if_pos (by rcases hrep with h1 | h1 <;> simp [pyEqStr, h1])]
  · intro herr hzero hflag
    unfold button_clicked
    rw [hs]
    rw [if_neg (by simp [pyEqStr, hAC, herr])]
    rw [if_pos hd]
    rw [if_neg (by simp [pyEqStr, hzero, hflag])]

/-- Claim C5, witness: the three behaviors at concrete inputs — digit `5`
on display "Error" resets to "0"; digit `5` on display "0" replaces it;
digit `5` on display "7" (flag clear) appends to "75". -/
theorem C5_digit_entry_witness :
    (button_clicked sampleOps { display := .pstr "Error", operator := "+", operand1 := .pint 0, new_operand := true } "5" =
      some { display := .pstr "0", operator := "+", operand1 := .pint 0, new_operand := true }) ∧
    (button_clicked sampleOps { display := .pstr "0", operator := "+", operand1 := .pint 0, new_operand := false } "5" =
      some { display := .pstr "5", operator := "+", operand1 := .pint 0, new_operand := false }) ∧
    button_clicked sampleOps { display := .pstr "7", operator := "+", operand1 := .pint 0, new_operand := false } "5" =
      some { display := .pstr "75", operator := "+", operand1 := .pint 0, new_operand := false } :=
  ⟨(C5_digit_entry sampleOps _ "5" "Error" (by decide) rfl).1 rfl,
   (C5_digit_entry sampleOps _ "5" "0" (by decide) rfl).2.1 (by decide) (Or.inl rfl),
   (C5_digit_entry sampleOps _ "5" "7" (by decide) rfl).2.2 (by decide) (by decide) rfl⟩

/-- Claim C6: whenever processing `=` terminates in a state (it can also
raise on an unparseable display), the resulting accumulator is at its
defaults: pending operator "+", pending operand 0, awaiting flag set.
Both the Error-reset path and the two `=` evaluation paths end in
`reset`. -/
theorem C6_equals_resets :
    ∀ (ops : MathOps) (s s1 : CalcState), button_clicked ops s "=" = some s1 →
      s1.operator = "+" ∧ s1.operand1 = .pint 0 ∧ s1.new_operand = true := by
  intro ops s s1 h
  unfold button_clicked at h
  by_cases herr : pyEqStr s.display "Error" = true
  · rw [if_pos (Or.inl herr)] at h
    obtain rfl := Option.some.injEq _ _ ▸ h
    exact ⟨rfl, rfl, rfl⟩
  · rw [if_neg (by simp [herr])] at h
    rw [if_neg (by decide), if_neg (by decide), if_neg (by decide), if_neg (by decide),
        if_neg (by decide), if_neg (by decide), if_neg (by decide), if_neg (by decide),
        if_neg (by decide), if_neg (by decide), if_pos rfl] at h
    by_cases hop : s.operator = "^"
    · rw [if_pos hop] at h
      obtain rfl := Option.some.injEq _ _ ▸ h
      exact ⟨rfl, rfl, rfl⟩
    · rw [if_neg hop] at h
      rcases hpf : pyFloat s.display with _ | v
      · rw [hpf] at h
        exact Option.noConfusion h
      · simp only [hpf] at h
        rcases hc : calculate s.operand1 v s.operator with _ | r
        · simp only [hc] at h
          exact Option.noConfusion h
        · simp only [hc] at h
          obtain rfl := Option.some.injEq _ _ ▸ h
          exact ⟨rfl, rfl, rfl⟩

/-- Claim C6, witness: `=` on display "5" with pending `0 + _` yields the
int 5 and the accumulator at defaults. -/
theorem C6_equals_resets_witness :
    ({ display := .pint 5, operator := "+", operand1 := .pint 0, new_operand := true } : CalcState).operator = "+" ∧
      ({ display := .pint 5, operator := "+", operand1 := .pint 0, new_operand := true } : CalcState).operand1 = .pint 0 ∧
      ({ display := .pint 5, operator := "+", operand1 := .pint 0, new_operand := true } : CalcState).new_operand = true :=
  C6_equals_resets sampleOps { display := .pstr "5", operator := "+", operand1 := .pint 0, new_operand := false } _ (by decide)

/-- Claim C7, amended: in any state whose display `float`-parses (which
excludes the "Error" sentinel), pressing `^` evaluates nothing: it only
stages pending_operator "^", stores the parsed display as the pending
operand, sets the awaiting flag, and leaves the display unchanged.  (On a
non-error display that does NOT parse, such as "..", the press raises —
see the counterexample.) -/
theorem C7_caret_stages_only :
    ∀ (ops : MathOps) (s : CalcState) (v : ℚ), pyFloat s.display = some v →
      button_clicked ops s "^" =
        some { s with operator := "^", operand1 := .pfloat v, new_operand := true } := by
  intro ops s v hv
  have herr := pyEqStr_error_of_pyFloat hv
  unfold button_clicked
  rw [if_neg (by simp [herr]), if_neg (by decide), if_neg (by decide), if_neg (by decide),
      if_neg (by decide), if_neg (by decide), if_neg (by decide), if_neg (by decide),
      if_neg (by decide), if_pos rfl, hv]

/-- Claim C7, witness: `^` on display "7" stages the operator and operand
and changes nothing else. -/
theorem C7_caret_stages_only_witness :
    button_clicked sampleOps { display := .pstr "7", operator := "*", operand1 := .pint 0, new_operand := false } "^" =
      some { display := .pstr "7", operator := "^", operand1 := .pfloat 7, new_operand := true } :=
  C7_caret_stages_only sampleOps _ 7 (by decide)

/-- A value Python arithmetic accepts as a number converts with `toNum`. -/
theorem toNum_of_isNum {v : PyVal} (h : isNum v = true) : ∃ a, toNum v = some a := by
  cases v with
  | pstr s => simp [isNum] at h
  | pint n => exact ⟨(n : ℚ), rfl⟩
  | pfloat q => exact ⟨q, rfl⟩
  | pnone => simp [isNum] at h

/-- Converting a `format_number` result back with `float` recovers the
value. -/
theorem pyFloat_format_number (q : ℚ) : pyFloat (format_number q) = some q := by
  unfold format_number
  split
  · next hq => exact congrArg some ((Rat.den_eq_one_iff q).mp hq)
  · rfl

/-- A `format_number` result is an int or a float, never equal to any
string under Python `==`. -/
theorem pyEqStr_format_number (q : ℚ) (t : String) : pyEqStr (format_number q) t = false := by
  unfold format_number
  split <;> rfl

/-- On the four dispatched operators with a numeric left operand,
`calculate` always returns: either the "Error" sentinel (division by
zero) or a `format_number` result. -/
theorem calculate_total {o1 : PyVal} {a : ℚ} (b : ℚ) {op : String} (hop : op ∈ binToks)
    (ha : toNum o1 = some a) :
    calculate o1 b op = some (.pstr "Error") ∨ ∃ q, calculate o1 b op = some (format_number q) := by
  simp only [binToks, List.mem_cons, List.mem_singleton, List.not_mem_nil, or_false] at hop
  rcases hop with h | h | h | h <;> subst h
  · exact Or.inr ⟨a + b, by simp [calculate, ha]⟩
  · exact Or.inr ⟨a - b, by simp [calculate, ha]⟩
  · exact Or.inr ⟨a * b, by simp [calculate, ha]⟩
  · by_cases hb : b = 0
    · exact Or.inl (by simp [calculate, hb])
    · exact Or.inr ⟨a / b, by simp [calculate, ha, hb]⟩

/-- Claim C8, amended: exceptions cannot escape from any state whose
display is a string that `float`-parses, whose pending operand is
numeric, and whose pending operator is one of `+ - * /` — every token is
then processed to a successor state, with failures (division by zero,
domain violations) converted to the "Error" sentinel.  The claim's full
generality fails: the binary-operator, power, equals, percent and
sign-toggle branches parse the display with an unguarded `float()`, so a
reachable unparseable display such as "." makes the next such press raise
(see the counterexample). -/
theorem C8_no_escape_on_guarded_states :
    ∀ (ops : MathOps) (s : CalcState) (t s0 : String) (x : ℚ),
      s.display = .pstr s0 → parseFloat s0 = some x → isNum s.operand1 = true →
      s.operator ∈ binToks → (button_clicked ops s t).isSome = true := by
  intro ops s t s0 x hd hp hn hbo
  obtain ⟨a, ha⟩ := toNum_of_isNum hn
  have hpfd : pyFloat s.display = some x := by rw [hd]; exact hp
  have herr : pyEqStr s.display "Error" = false := pyEqStr_error_of_pyFloat hpfd
  have hopx : ¬ s.operator = "^" := by
    intro he
    rw [he] at hbo
    simp [binToks] at hbo
  unfold button_clicked
  by_cases hAC : t = "AC"
  · rw [if_pos (Or.inr hAC)]; rfl
  rw [if_neg (by simp [herr, hAC])]
  by_cases hdig : t ∈ digitToks
  · rw [if_pos hdig]
    by_cases hrep : pyEqStr s.display "0" = true ∨ s.new_operand = true
    · rw [if_pos hrep]; rfl
    · rw [if_neg hrep, hd]; rfl
  rw [if_neg hdig]
  by_cases hbin : t ∈ binToks
  · rw [if_pos hbin]
    simp only [hpfd]
    rcases calculate_total x hbo ha with hc | ⟨q, hc⟩
    · simp only [hc]
      rw [if_pos (by decide)]
      rfl
    · simp only [hc, pyEqStr_format_number, pyFloat_format_number]
      rfl
  rw [if_neg hbin]
  by_cases hsin : t = "sin"
  · rw [if_pos hsin]; rfl
  rw [if_neg hsin]
  by_cases hcos : t = "cos"
  · rw [if_pos hcos]; rfl
  rw [if_neg hcos]
  by_cases htan : t = "tan"
  · rw [if_pos htan]; rfl
  rw [if_neg htan]
  by_cases hsq : t = "√"
  · rw [if_pos hsq]; rfl
  rw [if_neg hsq]
  by_cases hlog : t = "log"
  · rw [if_pos hlog]; rfl
  rw [if_neg hlog]
  by_cases hln : t = "ln"
  · rw [if_pos hln]; rfl
  rw [if_neg hln]
  by_cases hcar : t = "^"
  · rw [if_pos hcar]
    simp only [hpfd]
    rfl
  rw [if_neg hcar]
  by_cases hpi : t = "π"
  · rw [if_pos hpi]; rfl
  rw [if_neg hpi]
  by_cases heq : t = "="
  · rw [if_pos heq, if_neg hopx]
    simp only [hpfd]
    rcases calculate_total x hbo ha with hc | ⟨q, hc⟩ <;> simp only [hc] <;> rfl
  rw [if_neg heq]
  by_cases hpct : t = "%"
  · rw [if_pos hpct]
    simp only [hpfd]
    rfl
  rw [if_neg hpct]
  by_cases hsg : t = "+/-"
  · rw [if_pos hsg]
    simp only [hpfd]
    by_cases h1 : x > 0
    · rw [if_pos h1]; rfl
    rw [if_neg h1]
    by_cases h2 : x < 0
    · rw [if_pos h2]; rfl
    · rw [if_neg h2]; rfl
  rw [if_neg hsg]
  rfl

/-- Claim C8, witness for the amended theorem: the `%` press (one of the
unguarded-parse branches) terminates from a guarded state. -/
theorem C8_no_escape_witness :
    (button_clicked sampleOps { display := .pstr "5", operator := "+", operand1 := .pint 0, new_operand := false } "%").isSome = true :=
  C8_no_escape_on_guarded_states sampleOps _ "%" "5" 5 rfl (by decide) rfl (by decide)

/-- Values produced by the unsigned parser are nonnegative. -/
theorem parsePosL_nonneg {l : List Char} {q : ℚ} (h : parsePosL l = some q) : 0 ≤ q := by
  simp only [parsePosL] at h
  split at h
  · split at h
    · injection h with h1
      subst h1
      exact Nat.cast_nonneg _
    · exact Option.noConfusion h
  · split at h
    · injection h with h1
      subst h1
      positivity
    · exact Option.noConfusion h

/-- Prepending a minus sign parses to the negated unsigned value. -/
theorem parseFloat_minus (t : String) :
    parseFloat ("-" ++ t) = (parsePosL t.data).map (fun q => -q) := by
  have h1 : ("-" ++ t).data = '-' :: t.data := rfl
  simp only [parseFloat, h1]
  simp

/-- A string that `float`-parses to a positive value has no leading minus
sign and parses through the unsigned parser. -/
theorem parsePos_of_parseFloat_pos {t : String} {x : ℚ} (h : parseFloat t = some x)
    (hx : 0 < x) : parsePosL t.data = some x := by
  simp only [parseFloat] at h
  rcases ht : t.data with _ | ⟨c, rest⟩
  · simp only [ht] at h
    exact Option.noConfusion h
  · simp only [ht] at h
    by_cases hc : c = '-'
    · rw [if_pos hc] at h
      obtain ⟨q, hq, hqx⟩ := Option.map_eq_some'.mp h
      have hq0 := parsePosL_nonneg hq
      exfalso
      rw [← hqx] at hx
      linarith
    · rw [if_neg hc] at h
      exact h

/-- One sign-toggle press in symbolic form: with a display whose `float`
conversion is v, a positive v gets "-" prepended to the rendered display,
a negative v is replaced by the rendering of `format_number(abs v)`, and
v = 0 leaves the state untouched; the accumulator fields are never
touched. -/
theorem signToggle_eq (ops : MathOps) (s : CalcState) (v : ℚ)
    (hv : pyFloat s.display = some v) :
    button_clicked ops s "+/-" =
      if v > 0 then some { s with display := .pstr ("-" ++ pyStr s.display) }
      else if v < 0 then some { s with display := .pstr (pyStr (format_number (-v))) }
      else some s := by
  have herr := pyEqStr_error_of_pyFloat hv
  unfold button_clicked
  rw [if_neg (by simp [herr]), if_neg (by decide), if_neg (by decide), if_neg (by decide),
      if_neg (by decide), if_neg (by decide), if_neg (by decide), if_neg (by decide),
      if_neg (by decide), if_neg (by decide), if_neg (by decide), if_neg (by decide),
      if_neg (by decide), if_pos rfl]
  simp only [hv]

/-- Claim C10: sign-toggle is a numeric involution.  For every state
whose display `float`-parses to x — with the two rendering facts that are
true of every CPython float value, namely that the rendered display
re-parses to its value and that the rendering of `format_number(abs x)`
re-parses to `abs x` (CPython guarantees `float(str(v)) == v`; they are
hypotheses only because exact rationals cannot reproduce the rounding of
a hypothetical non-float display) — pressing sign-toggle twice yields
states s1 and s2 where the final display again parses to x, and neither
press touches the pending operator, pending operand, or awaiting flag. -/
theorem C10_sign_toggle_involution :
    ∀ (ops : MathOps) (s : CalcState) (x : ℚ),
      pyFloat s.display = some x →
      parseFloat (pyStr s.display) = some x →
      parseFloat (pyStr (format_number |x|)) = some |x| →
      ∃ s1 s2, button_clicked ops s "+/-" = some s1 ∧
        button_clicked ops s1 "+/-" = some s2 ∧
        pyFloat s2.display = some x ∧
        s1.operator = s.operator ∧ s1.operand1 = s.operand1 ∧ s1.new_operand = s.new_operand ∧
        s2.operator = s.operator ∧ s2.operand1 = s.operand1 ∧ s2.new_operand = s.new_operand := by
  intro ops s x hpf hps habs
  rcases lt_trichotomy x 0 with hneg | hzero | hpos
  · rw [abs_of_neg hneg] at habs
    have e1 : button_clicked ops s "+/-" =
        some { s with display := .pstr (pyStr (format_number (-x))) } := by
      rw [signToggle_eq ops s x hpf, if_neg (by linarith), if_pos hneg]
    have h2v : pyFloat (PyVal.pstr (pyStr (format_number (-x)))) = some (-x) := habs
    have e2 : button_clicked ops { s with display := .pstr (pyStr (format_number (-x))) } "+/-" =
        some { s with display := .pstr ("-" ++ pyStr (format_number (-x))) } := by
      rw [signToggle_eq ops _ (-x) h2v, if_pos (by linarith)]
      rfl
    refine ⟨_, _, e1, e2, ?_, rfl, rfl, rfl, rfl, rfl, rfl⟩
    show parseFloat ("-" ++ pyStr (format_number (-x))) = some x
    rw [parseFloat_minus, parsePos_of_parseFloat_pos habs (by linarith)]
    simp
  · subst hzero
    have e1 : button_clicked ops s "+/-" = some s := by
      rw [signToggle_eq ops s 0 hpf]
      norm_num
    exact ⟨s, s, e1, e1, hpf, rfl, rfl, rfl, rfl, rfl, rfl⟩
  · rw [abs_of_pos hpos] at habs
    have e1 : button_clicked ops s "+/-" =
        some { s with display := .pstr ("-" ++ pyStr s.display) } := by
      rw [signToggle_eq ops s x hpf, if_pos hpos]
    have h2v : pyFloat (PyVal.pstr ("-" ++ pyStr s.display)) = some (-x) := by
      show parseFloat ("-" ++ pyStr s.display) = some (-x)
      rw [parseFloat_minus, parsePos_of_parseFloat_pos hps hpos]
      rfl
    have e2 : button_clicked ops { s with display := .pstr ("-" ++ pyStr s.display) } "+/-" =
        some { s with display := .pstr (pyStr (format_number x)) } := by
      rw [signToggle_eq ops _ (-x) h2v, if_neg (by linarith), if_pos (by linarith), neg_neg]
    refine ⟨_, _, e1, e2, ?_, rfl, rfl, rfl, rfl, rfl, rfl⟩
    exact habs

/-- Claim C10, witness: two sign-toggle presses on display "5" with a
staged `7 *` accumulator go through "-5" back to parsed value 5 with the
accumulator untouched. -/
theorem C10_sign_toggle_involution_witness :
    ∃ s1 s2, button_clicked sampleOps { display := .pstr "5", operator := "*", operand1 := .pint 7, new_operand := false } "+/-" = some s1 ∧
      button_clicked sampleOps s1 "+/-" = some s2 ∧
      pyFloat s2.display = some 5 ∧
      s1.operator = "*" ∧ s1.operand1 = .pint 7 ∧ s1.new_operand = false ∧
      s2.operator = "*" ∧ s2.operand1 = .pint 7 ∧ s2.new_operand = false :=
  C10_sign_toggle_involution sampleOps _ 5 (by decide) (by decide)
    (by rw [show |(5:ℚ)| = 5 from by norm_num]; decide)
